import Mathlib

/-
Verification development for the SoapyBladeRF streaming engine
(src/bladeRF_Streaming.cpp).

The file shallowly embeds the streaming code: the per-direction mutable
state of the driver becomes explicit state records, each C++ call becomes a
Lean function from the pre-state (plus the result the opaque transport
would produce for that call) to the post-state and outputs.  The transport
(libbladeRF bladerf_sync_rx / bladerf_sync_tx) is external to this
repository and is modelled as an oracle value per invocation; what the
engine hands TO the transport (buffer contents, counts, metadata flags) is
recorded in the call-output records so that theorems can speak about it.

Floating-point sample scalars and the double-precision timestamp
arithmetic are modelled over the exact rationals; conversions to integer
types use truncation toward zero (ratTrunc), matching C++ float-to-int
conversion in the defined range.
-/

namespace SoapyBladeRF

/-! ### External constants

SoapySDR return codes and flag bits (SoapySDR/Errors.h, Constants.h) and
libbladeRF metadata flag bits (libbladeRF.h).  These headers are external
to the repository; the values below are the library values. -/

def SOAPY_SDR_TIMEOUT : ℤ := -1

def SOAPY_SDR_STREAM_ERROR : ℤ := -2

def SOAPY_SDR_OVERFLOW : ℤ := -4

def SOAPY_SDR_END_BURST : ℕ := 2

def SOAPY_SDR_HAS_TIME : ℕ := 4

def BLADERF_META_FLAG_TX_BURST_START : ℕ := 1

def BLADERF_META_FLAG_TX_BURST_END : ℕ := 2

def BLADERF_META_FLAG_TX_NOW : ℕ := 4

def BLADERF_META_FLAG_RX_NOW : ℕ := 2 ^ 31

/-! ### Numeric helpers -/

/-- Truncation toward zero of a rational, as C++ float-to-integer
conversion behaves on in-range values. -/
def ratTrunc (x : ℚ) : ℤ := if 0 ≤ x then ⌊x⌋ else -⌊-x⌋

/-- C-style division truncating toward zero (used only with positive
divisors), as C++ integer division behaves. -/
def cdiv (a b : ℤ) : ℤ := if 0 ≤ a then a / b else -(-a / b)

/-! ### Format converter (bladeRF_Streaming.cpp lines 224-232, 280-288)

Elementwise scalar conversions between the device fixed-point
representation and the float wire format.  `rxElemToFloat` embeds
`output[i] = float(_rxConvBuff[i])/2000` and `txElemToFixed` embeds
`_txConvBuff[i] = int16_t(input[i]*2000)` (out-of-range values are
undefined behaviour in the source and outside every claim's range). -/

def rxElemToFloat (v : ℤ) : ℚ := (v : ℚ) / 2000

def txElemToFixed (x : ℚ) : ℤ := ratTrunc (x * 2000)

/-! ### Receive path state and model (readStream, lines 171-253) -/

/-- One queued receive command (struct rxStreamCmd of the driver header:
flags, timeNs, numElems), created by activateStream. -/
structure rxStreamCmd where
  flags : ℕ
  timeNs : ℤ
  numElems : ℕ
  deriving DecidableEq

/-- The receive-direction mutable state of the driver object. -/
structure RxState where
  rxCmds : List rxStreamCmd
  rxOverflow : Bool
  rxNextTicks : ℕ
  rxSampRate : ℚ
  rxFloats : Bool
  deriving DecidableEq

/-- Result of one bladerf_sync_rx invocation, as observed by the engine:
a timeout, some other nonzero error code, or success together with the
returned metadata fields (timestamp, actual_count, overrun status bit). -/
inductive RxRes where
  | timeout
  | error (code : ℤ)
  | ok (timestamp : ℕ) (actual : ℕ) (overrun : Bool)
  deriving DecidableEq

/-- Arguments the engine hands to bladerf_sync_rx: the (clamped) element
count, the metadata flags and timestamp it filled in, and the timeout in
milliseconds. -/
structure RxTransportCall where
  numElems : ℕ
  mdFlags : ℕ
  mdTimestamp : ℤ
  timeoutMs : ℤ
  deriving DecidableEq

/-- Everything one readStream call produces: the return code, the values
written through the flags / timeNs reference parameters (none when the
call returns before writing them), the post-state, and the transport
invocation made (none when the transport was not called). -/
structure RxCallOut where
  ret : ℤ
  flagsOut : Option ℕ
  timeNsOut : Option ℤ
  state : RxState
  rxCall : Option RxTransportCall
  deriving DecidableEq

/-- bladeRF_SoapySDR::readStream (lines 171-253).  Note the source copies
the front command into a local (`rxStreamCmd cmd = _rxCmds.front();`,
line 182): mutations of `cmd` (flag clearing line 207, count decrement
line 249) never reach the queued command; the embedding reproduces that.
The size_t decrement-and-test `cmd.numElems -= md.actual_count;
if (cmd.numElems == 0)` is embedded with its mod-2^64 wraparound. -/
def readStream (st : RxState) (numElems : ℕ) (timeoutUs : ℤ) (res : RxRes) :
    RxCallOut :=
  match st.rxCmds with
  | [] => ⟨SOAPY_SDR_TIMEOUT, none, none, st, none⟩
  | cmd :: rest =>
    if st.rxOverflow then
      ⟨SOAPY_SDR_OVERFLOW, some SOAPY_SDR_HAS_TIME,
       some (ratTrunc ((st.rxNextTicks : ℚ) * ((10 : ℚ) ^ 9 / st.rxSampRate))),
       { st with rxOverflow := false }, none⟩
    else
      let mdFlags : ℕ :=
        if cmd.flags &&& SOAPY_SDR_HAS_TIME = 0 then BLADERF_META_FLAG_RX_NOW else 0
      let mdTimestamp : ℤ := ratTrunc ((cmd.timeNs : ℚ) * (st.rxSampRate / (10 : ℚ) ^ 9))
      let ne := if 0 < cmd.numElems then min cmd.numElems numElems else numElems
      let call : RxTransportCall := ⟨ne, mdFlags, mdTimestamp, cdiv timeoutUs 1000⟩
      match res with
      | .timeout => ⟨SOAPY_SDR_TIMEOUT, some 0, some 0, st, some call⟩
      | .error _ =>
        ⟨SOAPY_SDR_STREAM_ERROR, some 0, some 0,
         if 0 < cmd.numElems then { st with rxCmds := rest } else st, some call⟩
      | .ok ts actual overrun =>
        let st1 := if overrun then
          { st with rxNextTicks := ts + actual, rxOverflow := true } else st
        let remAfter : ℕ := (cmd.numElems + (2 ^ 64 - actual % 2 ^ 64)) % 2 ^ 64
        let st2 := if 0 < cmd.numElems ∧ remAfter = 0 then
          { st1 with rxCmds := rest } else st1
        ⟨(actual : ℤ), some SOAPY_SDR_HAS_TIME,
         some (ratTrunc ((ts : ℚ) * ((10 : ℚ) ^ 9 / st.rxSampRate))), st2, some call⟩

/-! ### Transmit path state and model
(writeStream lines 255-316, sendTxEndBurst lines 318-344) -/

/-- The transmit-direction mutable state of the driver object. -/
structure TxState where
  inTxBurst : Bool
  txUnderflow : Bool
  txSampRate : ℚ
  txFloats : Bool
  deriving DecidableEq

/-- Result of one bladerf_sync_tx invocation as observed by the engine:
timeout, other nonzero error, or success with the metadata fields the
transport reports back (actual_count and the underrun status bit). -/
inductive TxRes where
  | timeout
  | error (code : ℤ)
  | ok (actualCount : ℕ) (underrun : Bool)
  deriving DecidableEq

def TxRes.isOk : TxRes → Bool
  | .ok _ _ => true
  | _ => false

/-- Metadata flags of the burst-end transfer (line 323). -/
def endBurstMdFlags : ℕ := BLADERF_META_FLAG_TX_BURST_END

/-- The zero payload words of the burst-end transfer
(`uint32_t samples[2]; samples[0] = 0; samples[1] = 0;`, lines 327-329). -/
def endBurstSamples : List ℤ := [0, 0]

/-- The count argument passed to bladerf_sync_tx by sendTxEndBurst
(line 334). -/
def endBurstCount : ℕ := 2

/-- The fixed timeout of each burst-end transfer attempt (line 334). -/
def endBurstTimeoutMs : ℤ := 1000

/-- The retry loop of sendTxEndBurst (lines 332-341) run against the list
of successive transport results: `break` on success, `continue` on
timeout, and on any other error log and fall through to the next loop
iteration.  Returns the number of bladerf_sync_tx invocations made, or
none when the trace never reports success (the source loops forever). -/
def sendTxEndBurstLoop : List TxRes → Option ℕ
  | [] => none
  | .ok _ _ :: _ => some 1
  | .timeout :: rs => (sendTxEndBurstLoop rs).map (· + 1)
  | .error _ :: rs => (sendTxEndBurstLoop rs).map (· + 1)

/-- bladeRF_SoapySDR::sendTxEndBurst (lines 318-344): run the retry loop,
then clear _inTxBurst.  Yields the attempt count and post-state, none when
the loop never terminates. -/
def sendTxEndBurst (trace : List TxRes) (st : TxState) : Option (ℕ × TxState) :=
  (sendTxEndBurstLoop trace).map fun n => (n, { st with inTxBurst := false })

/-- Everything one writeStream call produces: the return code, the
post-state, the scratch conversion buffer contents written (empty when the
float path is inactive), the scalar sample words and count handed to
bladerf_sync_tx, the metadata flags/timestamp handed to it, and the number
of burst-end transfers performed by a triggered sendTxEndBurst. -/
structure TxCallOut where
  ret : ℤ
  state : TxState
  txConvBuff : List ℤ
  transportSamples : List ℤ
  transportCount : ℕ
  mdFlags : ℕ
  mdTimestamp : ℤ
  timeoutMs : ℤ
  endBurstTransfers : ℕ
  deriving DecidableEq

/-- bladeRF_SoapySDR::writeStream (lines 255-316).  `buffsF` is the caller
buffer read as float scalars and `buffsI` the same buffer read as int16
scalars (native format); `convView` is the prior contents of the internal
scratch buffer _txConvBuff reinterpreted as float scalars.  Note the
source's float path never reads the caller buffer: line 278 reassigns
`samples = _txConvBuff` before line 283 takes
`float *input = (float *)samples;`, so the conversion loop reads the
stale scratch contents (`convView`), not `buffsF` — faithfully
reproduced here (each float load at index i precedes the int16 stores
that overwrite its bytes, so the loop reads the original view; the
byte-level reinterpretation itself is opaque and `convView` is therefore
an oracle input).  `res` is the transport's result for the main transfer
and `endTrace` the transport results consumed by sendTxEndBurst when the
caller requests end-of-burst.  The value is none exactly when a
triggered sendTxEndBurst never terminates. -/
def writeStream (st : TxState) (buffsF : List ℚ) (buffsI : List ℤ)
    (convView : List ℚ) (numElems : ℕ) (flags : ℕ) (timeNs : ℤ) (timeoutUs : ℤ)
    (res : TxRes) (endTrace : List TxRes) : Option TxCallOut :=
  let mdTimestamp : ℤ :=
    if flags &&& SOAPY_SDR_HAS_TIME ≠ 0 then
      ratTrunc ((timeNs : ℚ) * (st.txSampRate / (10 : ℚ) ^ 9)) else 0
  let mdFlags0 : ℕ :=
    if flags &&& SOAPY_SDR_HAS_TIME ≠ 0 then 0 else BLADERF_META_FLAG_TX_NOW
  let conv : List ℤ :=
    if st.txFloats then (convView.take (2 * numElems)).map txElemToFixed else []
  let samples : List ℤ :=
    if st.txFloats then conv else buffsI.take (2 * numElems)
  let mdFlags : ℕ :=
    if st.inTxBurst then mdFlags0 else mdFlags0 ||| BLADERF_META_FLAG_TX_BURST_START
  let toMs : ℤ := cdiv timeoutUs 1000
  match res with
  | .timeout =>
    some ⟨SOAPY_SDR_TIMEOUT, st, conv, samples, numElems, mdFlags, mdTimestamp, toMs, 0⟩
  | .error _ =>
    some ⟨SOAPY_SDR_STREAM_ERROR, st, conv, samples, numElems, mdFlags, mdTimestamp, toMs, 0⟩
  | .ok _ underrun =>
    let st1 : TxState := { st with inTxBurst := true }
    let afterEnd : Option (ℕ × TxState) :=
      if flags &&& SOAPY_SDR_END_BURST ≠ 0 then sendTxEndBurst endTrace st1
      else some (0, st1)
    afterEnd.map fun p =>
      let st2 := if underrun then { p.2 with txUnderflow := true } else p.2
      ⟨(numElems : ℤ), st2, conv, samples, numElems, mdFlags, mdTimestamp, toMs, p.1⟩

/-! ### setupStream tunable normalization (lines 26-27 and 46-60) -/

def DEF_NUM_BUFFS : ℤ := 32

def DEF_BUFF_LEN : ℤ := 4096

/-- Lines 47-49: the effective buffer count.  The argument is the parsed
"buffers" option (none when absent, mirroring
`args.count("buffers") == 0 ? 0 : atoi(...)`). -/
def numBuffsEff (buffers : Option ℤ) : ℤ :=
  let n := buffers.getD 0
  let n1 := if n = 0 then DEF_BUFF_LEN else n
  if n1 = 1 then n1 + 1 else n1

/-- Lines 52-54: the effective per-buffer length in samples.  The modulus
test `(bufSize % 1024) != 0` agrees between C truncated remainder and the
euclidean remainder used here (both are zero exactly on multiples), and
the quotient in the round-up uses C truncated division. -/
def bufSizeEff (buflen : Option ℤ) : ℤ :=
  let s := buflen.getD 0
  let s1 := if s = 0 then DEF_BUFF_LEN else s
  if s1 % 1024 ≠ 0 then (cdiv s1 1024 + 1) * 1024 else s1

/-- Lines 57-60: the effective number of in-flight transfers, given the
parsed "transfers" option and the already-normalized buffer count. -/
def numXfersEff (transfers : Option ℤ) (numBuffs : ℤ) : ℤ :=
  let x := transfers.getD 0
  let x1 := if x = 0 then cdiv numBuffs 2 else x
  let x2 := if x1 > numBuffs then numBuffs else x1
  if x2 > 32 then 32 else x2

/-! ### Helper lemmas -/

theorem ratTrunc_intCast (n : ℤ) : ratTrunc (n : ℚ) = n := by
  unfold ratTrunc
  rcases le_or_lt 0 (n : ℚ) with h | h
  · rw [if_pos h, Int.floor_intCast]
  · rw [if_neg (not_le.mpr h), ← Int.cast_neg, Int.floor_intCast, neg_neg]

theorem sendTxEndBurstLoop_spec :
    ∀ (tr : List TxRes) (n : ℕ), sendTxEndBurstLoop tr = some n →
      1 ≤ n ∧ (tr[n - 1]?).map TxRes.isOk = some true ∧
        ∀ i r, i + 1 < n → tr[i]? = some r → r.isOk = false := by
  intro tr
  induction tr with
  | nil => intro n h; simp [sendTxEndBurstLoop] at h
  | cons r rs ih =>
    intro n h
    match r with
    | .ok a u =>
      simp only [sendTxEndBurstLoop, Option.some.injEq] at h
      subst h
      exact ⟨le_refl 1, by simp [TxRes.isOk], fun i r hi _ => by omega⟩
    | .timeout =>
      simp only [sendTxEndBurstLoop, Option.map_eq_some'] at h
      obtain ⟨m, hm, rfl⟩ := h
      obtain ⟨h1, h2, h3⟩ := ih m hm
      obtain ⟨k, rfl⟩ : ∃ k, m = k + 1 := ⟨m - 1, by omega⟩
      refine ⟨by omega, by simpa using h2, ?_⟩
      intro i r hi hr
      match i with
      | 0 => simp at hr; subst hr; rfl
      | j + 1 => exact h3 j r (by omega) (by simpa using hr)
    | .error c =>
      simp only [sendTxEndBurstLoop, Option.map_eq_some'] at h
      obtain ⟨m, hm, rfl⟩ := h
      obtain ⟨h1, h2, h3⟩ := ih m hm
      obtain ⟨k, rfl⟩ : ∃ k, m = k + 1 := ⟨m - 1, by omega⟩
      refine ⟨by omega, by simpa using h2, ?_⟩
      intro i r hi hr
      match i with
      | 0 => simp at hr; subst hr; rfl
      | j + 1 => exact h3 j r (by omega) (by simpa using hr)

/-! ### Claim theorems -/

/-- C1 (code bug): the source copies the front command into a local
(line 182), so the decrement at line 249 never reaches the queued
command.  At the spec's own example — one finite command for N = 100
served by three successful transfers with actual counts 40, 35, 25 — the
queued command still holds numElems = 100 after every call and is never
dequeued, even though the running total of actual counts reaches N;
the comment at line 207 ("clear flags for subsequent calls") shows the
source intended the local to alias the queue front. -/
theorem readStream_finite_command_never_decremented :
    (readStream ⟨[⟨0, 0, 100⟩], false, 0, 10 ^ 6, false⟩
        4096 100000 (.ok 0 40 false)).state.rxCmds = [⟨0, 0, 100⟩]
    ∧ (readStream (readStream ⟨[⟨0, 0, 100⟩], false, 0, 10 ^ 6, false⟩
        4096 100000 (.ok 0 40 false)).state
        4096 100000 (.ok 40 35 false)).state.rxCmds = [⟨0, 0, 100⟩]
    ∧ (readStream (readStream (readStream ⟨[⟨0, 0, 100⟩], false, 0, 10 ^ 6, false⟩
        4096 100000 (.ok 0 40 false)).state
        4096 100000 (.ok 40 35 false)).state
        4096 100000 (.ok 75 25 false)).state.rxCmds = [⟨0, 0, 100⟩]
    ∧ 40 + 35 + 25 = 100 := by
  refine ⟨?_, ?_, ?_, ?_⟩ <;> decide

/-- C7: a receive call made while the command queue is empty returns
Timeout, makes no transport invocation, writes neither reference output,
and leaves the receive state unchanged. -/
theorem readStream_empty_queue_timeout (st : RxState) (numElems : ℕ)
    (timeoutUs : ℤ) (res : RxRes) (h : st.rxCmds = []) :
    readStream st numElems timeoutUs res
      = ⟨SOAPY_SDR_TIMEOUT, none, none, st, none⟩ := by
  simp [readStream, h]

/-- Witness for C7 at a concrete empty-queue state. -/
theorem readStream_empty_queue_timeout_witness :
    readStream ⟨[], false, 0, 1, false⟩ 5 1000 RxRes.timeout
      = ⟨SOAPY_SDR_TIMEOUT, none, none, ⟨[], false, 0, 1, false⟩, none⟩ :=
  readStream_empty_queue_timeout _ 5 1000 _ rfl

/-- C6: the overrun latch protocol of readStream.  First part: a call
made with a non-empty queue and the latch set returns Overflow with
HasTime and the pre-recorded overrun tick position converted to
nanoseconds, clears the latch, makes no transport invocation, and
changes nothing else.  Second part: a successful transport receive that
reports an overrun sets the latch and records timestamp + actual_count.
Third part: a call with the latch clear and a successful overrun-free
transport receive proceeds normally (invokes the transport, returns the
actual count, leaves the latch clear). -/
theorem readStream_overflow_latch_protocol :
    (∀ (st : RxState) (numElems : ℕ) (timeoutUs : ℤ) (res : RxRes),
      st.rxCmds ≠ [] → st.rxOverflow = true →
      readStream st numElems timeoutUs res
        = ⟨SOAPY_SDR_OVERFLOW, some SOAPY_SDR_HAS_TIME,
           some (ratTrunc ((st.rxNextTicks : ℚ) * ((10 : ℚ) ^ 9 / st.rxSampRate))),
           { st with rxOverflow := false }, none⟩)
    ∧ (∀ (st : RxState) (numElems : ℕ) (timeoutUs : ℤ) (ts actual : ℕ),
      st.rxCmds ≠ [] → st.rxOverflow = false →
      (readStream st numElems timeoutUs (.ok ts actual true)).state.rxOverflow = true
      ∧ (readStream st numElems timeoutUs (.ok ts actual true)).state.rxNextTicks
          = ts + actual)
    ∧ (∀ (st : RxState) (numElems : ℕ) (timeoutUs : ℤ) (ts actual : ℕ),
      st.rxCmds ≠ [] → st.rxOverflow = false →
      (readStream st numElems timeoutUs (.ok ts actual false)).ret = (actual : ℤ)
      ∧ (readStream st numElems timeoutUs (.ok ts actual false)).rxCall ≠ none
      ∧ (readStream st numElems timeoutUs (.ok ts actual false)).state.rxOverflow
          = false) := by
  refine ⟨?_, ?_, ?_⟩
  · intro st numElems timeoutUs res hne hov
    rcases hcmds : st.rxCmds with _ | ⟨cmd, rest⟩
    · exact absurd hcmds hne
    · simp [readStream, hcmds, hov]
  · intro st numElems timeoutUs ts actual hne hov
    rcases hcmds : st.rxCmds with _ | ⟨cmd, rest⟩
    · exact absurd hcmds hne
    · simp [readStream, hcmds, hov, apply_ite]
  · intro st numElems timeoutUs ts actual hne hov
    rcases hcmds : st.rxCmds with _ | ⟨cmd, rest⟩
    · exact absurd hcmds hne
    · simp [readStream, hcmds, hov, apply_ite]

/-- Witness for C6 at concrete states: a latched state reports Overflow
without a transport call; an overrun-reporting success sets the latch and
records tick 1000 + 50; an overrun-free success proceeds normally. -/
theorem readStream_overflow_latch_protocol_witness :
    readStream ⟨[⟨0, 0, 0⟩], true, 1050, 10 ^ 6, false⟩ 8 1000 RxRes.timeout
      = ⟨SOAPY_SDR_OVERFLOW, some SOAPY_SDR_HAS_TIME,
         some (ratTrunc (((1050 : ℕ) : ℚ) * ((10 : ℚ) ^ 9 / (10 ^ 6 : ℚ)))),
         ⟨[⟨0, 0, 0⟩], false, 1050, 10 ^ 6, false⟩, none⟩
    ∧ (readStream ⟨[⟨0, 0, 0⟩], false, 0, 10 ^ 6, false⟩ 8 1000
        (RxRes.ok 1000 50 true)).state.rxOverflow = true
    ∧ (readStream ⟨[⟨0, 0, 0⟩], false, 0, 10 ^ 6, false⟩ 8 1000
        (RxRes.ok 1000 50 true)).state.rxNextTicks = 1050
    ∧ (readStream ⟨[⟨0, 0, 0⟩], false, 0, 10 ^ 6, false⟩ 8 1000
        (RxRes.ok 1000 50 false)).ret = 50
    ∧ (readStream ⟨[⟨0, 0, 0⟩], false, 0, 10 ^ 6, false⟩ 8 1000
        (RxRes.ok 1000 50 false)).state.rxOverflow = false := by
  have h := readStream_overflow_latch_protocol
  exact ⟨h.1 _ 8 1000 _ (by decide) rfl,
    (h.2.1 _ 8 1000 1000 50 (by decide) rfl).1,
    (h.2.1 _ 8 1000 1000 50 (by decide) rfl).2,
    (h.2.2 _ 8 1000 1000 50 (by decide) rfl).1,
    (h.2.2 _ 8 1000 1000 50 (by decide) rfl).2.2⟩

/-- C4 counterexample: a transmit call whose transport transfer succeeds
with metadata actual count 0 returns the requested element count 1, not
the metadata actual count, so the claim's transmit half is false. -/
theorem writeStream_returns_numElems_not_actual :
    (writeStream ⟨false, false, 1, false⟩ [] [3, 4] [] 1 0 0 100000
        (TxRes.ok 0 false) []).map (fun o => o.ret) = some 1
    ∧ (1 : ℤ) ≠ 0 := by
  constructor <;> decide

/-- C4 (amended): on transport success the receive call returns the
metadata actual count, while the transmit call returns the requested
element count — writeStream never consults the metadata actual count. -/
theorem stream_calls_return_counts :
    (∀ (st : RxState) (numElems : ℕ) (timeoutUs : ℤ) (ts actual : ℕ) (ov : Bool),
      st.rxCmds ≠ [] → st.rxOverflow = false →
      (readStream st numElems timeoutUs (.ok ts actual ov)).ret = (actual : ℤ))
    ∧ (∀ (st : TxState) (buffsF : List ℚ) (buffsI : List ℤ) (convView : List ℚ)
        (numElems : ℕ) (flags : ℕ) (timeNs timeoutUs : ℤ) (actual : ℕ) (u : Bool)
        (endTrace : List TxRes) (out : TxCallOut),
      writeStream st buffsF buffsI convView numElems flags timeNs timeoutUs
          (.ok actual u) endTrace = some out →
      out.ret = (numElems : ℤ)) := by
  constructor
  · intro st numElems timeoutUs ts actual ov hne hov
    rcases hcmds : st.rxCmds with _ | ⟨cmd, rest⟩
    · exact absurd hcmds hne
    · simp [readStream, hcmds, hov]
  · intro st buffsF buffsI convView numElems flags timeNs timeoutUs actual u endTrace out h
    simp only [writeStream] at h
    rcases hend : (if flags &&& SOAPY_SDR_END_BURST ≠ 0 then
        sendTxEndBurst endTrace { st with inTxBurst := true }
        else some (0, { st with inTxBurst := true })) with _ | p
    · rw [hend] at h; simp at h
    · rw [hend] at h
      simp only [Option.map_some', Option.some.injEq] at h
      subst h
      rfl

/-- Witness for C4's amended statement at concrete calls. -/
theorem stream_calls_return_counts_witness :
    (readStream ⟨[⟨0, 0, 0⟩], false, 0, 10 ^ 6, false⟩ 8 1000
        (RxRes.ok 0 5 false)).ret = 5
    ∧ (writeStream ⟨false, false, 1, false⟩ [] [3, 4] [] 1 0 0 100000
        (TxRes.ok 0 false) []).map (fun o => o.ret) = some 1 := by
  have h := stream_calls_return_counts
  refine ⟨h.1 _ 8 1000 0 5 false (by decide) rfl, ?_⟩
  rcases hw : writeStream ⟨false, false, 1, false⟩ [] [3, 4] [] 1 0 0 100000
      (TxRes.ok 0 false) [] with _ | out
  · exact absurd hw (by decide)
  · rw [Option.map_some', h.2 _ _ _ _ _ _ _ _ _ _ _ _ hw]; norm_num

/-- C2 (code bug): the float transmit path never reads the caller's
buffer.  Line 278 reassigns `samples = _txConvBuff` before line 283 takes
`float *input = (float *)samples;`, so the conversion loop converts the
scratch buffer's stale contents reinterpreted as floats, not the caller's
float samples.  At numElems = 1 with caller floats [3/2, -1/2] — which
the claim says reach the transport as [3000, -1000] — and an all-zero
stale scratch view, the transport receives [0, 0]; moreover the whole
call output is independent of the caller's float-view contents. -/
theorem writeStream_float_conversion_reads_scratch_not_caller :
    (writeStream ⟨false, false, 1, true⟩ [3 / 2, -1 / 2] [] [0, 0] 1 0 0 100000
        TxRes.timeout []).map (fun o => o.transportSamples) = some [0, 0]
    ∧ ([(3 : ℚ) / 2, -1 / 2].take (2 * 1)).map txElemToFixed = [3000, -1000]
    ∧ ([0, 0] : List ℤ) ≠ [3000, -1000]
    ∧ (∀ (st : TxState) (bF bG : List ℚ) (bI : List ℤ) (cv : List ℚ)
        (n flg : ℕ) (tn tu : ℤ) (r : TxRes) (et : List TxRes),
        writeStream st bF bI cv n flg tn tu r et
          = writeStream st bG bI cv n flg tn tu r et) :=
  ⟨by norm_num [writeStream, txElemToFixed, ratTrunc],
   by norm_num [txElemToFixed, ratTrunc],
   by decide, fun _ _ _ _ _ _ _ _ _ _ _ => rfl⟩

/-- C9: the fixed→float→fixed round trip (receive-path conversion then
transmit-path conversion) is the identity on the int16-representable
range, in the exact-rational model of the float arithmetic. -/
theorem fixed_float_roundtrip (v : ℤ) (h1 : -(2 ^ 15) ≤ v) (h2 : v < 2 ^ 15) :
    txElemToFixed (rxElemToFloat v) = v := by
  unfold txElemToFixed rxElemToFloat
  have hv : ((v : ℚ) / 2000) * 2000 = (v : ℚ) := by field_simp
  rw [hv, ratTrunc_intCast]

/-- Witness for C9 at v = 1234. -/
theorem fixed_float_roundtrip_witness :
    txElemToFixed (rxElemToFloat 1234) = 1234 :=
  fixed_float_roundtrip 1234 (by decide) (by decide)

/-- C5 counterexample: a successful transmit call that carries the
end-burst flag returns the element count (success) yet leaves the burst
flag false, so "every successful transmit leaves the flag true" is false
as stated. -/
theorem writeStream_end_burst_clears_flag_cex :
    (writeStream ⟨false, false, 1, false⟩ [] [5, 6] [] 1 SOAPY_SDR_END_BURST 0 0
        (TxRes.ok 1 false) [TxRes.ok 2 false]).map
        (fun o => (o.ret, o.state.inTxBurst))
      = some (1, false)
    ∧ ((1 : ℤ), false) ≠ ((1 : ℤ), true) := by
  constructor <;> decide

/-- C5 (amended): a transmit whose transport transfer times out or fails
leaves the burst flag unchanged; a successful transmit without the
end-burst flag leaves it true; a successful transmit with the end-burst
flag completes a burst-end transfer (its last attempt succeeding) and
leaves the flag false; and the flag drops from true to false only through
that end-burst path. -/
theorem inTxBurst_transition_spec
    (st : TxState) (buffsF : List ℚ) (buffsI : List ℤ) (convView : List ℚ)
    (numElems : ℕ) (flags : ℕ) (timeNs timeoutUs : ℤ) (res : TxRes)
    (endTrace : List TxRes) (out : TxCallOut)
    (h : writeStream st buffsF buffsI convView numElems flags timeNs timeoutUs
        res endTrace = some out) :
    (res.isOk = false → out.state.inTxBurst = st.inTxBurst)
    ∧ (res.isOk = true → flags &&& SOAPY_SDR_END_BURST = 0 →
        out.state.inTxBurst = true)
    ∧ (res.isOk = true → flags &&& SOAPY_SDR_END_BURST ≠ 0 →
        out.state.inTxBurst = false ∧ 1 ≤ out.endBurstTransfers
        ∧ (endTrace[out.endBurstTransfers - 1]?).map TxRes.isOk = some true)
    ∧ (st.inTxBurst = true → out.state.inTxBurst = false →
        res.isOk = true ∧ flags &&& SOAPY_SDR_END_BURST ≠ 0) := by
  obtain ⟨ib, uf, rate, fl⟩ := st
  match res with
  | .timeout =>
    simp only [writeStream, Option.some.injEq] at h
    subst h
    exact ⟨fun _ => rfl, by simp [TxRes.isOk], by simp [TxRes.isOk],
      fun ht hfb => absurd hfb (by
        have ht2 : ib = true := ht
        simp [ht2])⟩
  | .error c =>
    simp only [writeStream, Option.some.injEq] at h
    subst h
    exact ⟨fun _ => rfl, by simp [TxRes.isOk], by simp [TxRes.isOk],
      fun ht hfb => absurd hfb (by
        have ht2 : ib = true := ht
        simp [ht2])⟩
  | .ok a u =>
    by_cases hfl : flags &&& SOAPY_SDR_END_BURST = 0
    · simp [writeStream, hfl] at h
      subst h
      refine ⟨by simp [TxRes.isOk], fun _ _ => ?_, fun _ hc => absurd hfl hc,
        fun _ hfb => absurd hfb ?_⟩
      · simp [apply_ite TxState.inTxBurst]
      · simp [apply_ite TxState.inTxBurst]
    · simp [writeStream, hfl, Option.map_eq_some'] at h
      obtain ⟨m, st2, hsend, hout⟩ := h
      subst hout
      simp only [sendTxEndBurst, Option.map_eq_some'] at hsend
      obtain ⟨m2, hloop, hp2⟩ := hsend
      injection hp2 with hpa hpb
      subst hpa
      subst hpb
      obtain ⟨hm1, hm2, _⟩ := sendTxEndBurstLoop_spec endTrace m2 hloop
      refine ⟨by simp [TxRes.isOk], fun _ hc => absurd hc hfl,
        fun _ _ => ⟨?_, ?_, ?_⟩, fun _ _ => ⟨rfl, hfl⟩⟩
      · simp [apply_ite TxState.inTxBurst]
      · simpa using hm1
      · simpa using hm2

/-- Witness for C5's amended statement: a successful transmit with the
end-burst flag, whose burst-end trace succeeds on the second attempt,
ends with the flag false after two burst-end transfers. -/
theorem inTxBurst_transition_spec_witness :
    (writeStream ⟨true, false, 1, false⟩ [] [5, 6] [] 1 SOAPY_SDR_END_BURST 0 0
        (TxRes.ok 1 false) [TxRes.timeout, TxRes.ok 2 false]).map
        (fun o => (o.state.inTxBurst, o.endBurstTransfers))
      = some (false, 2) := by
  rcases hw : writeStream ⟨true, false, 1, false⟩ [] [5, 6] [] 1 SOAPY_SDR_END_BURST 0 0
      (TxRes.ok 1 false) [TxRes.timeout, TxRes.ok 2 false] with _ | out
  · exact absurd hw (by decide)
  · have hflag := ((inTxBurst_transition_spec _ _ _ _ _ _ _ _ _ _ _ hw).2.2.1
      rfl (by decide)).1
    have hn : out.endBurstTransfers = 2 := by
      have h2 : (writeStream ⟨true, false, 1, false⟩ [] [5, 6] [] 1 SOAPY_SDR_END_BURST
          0 0 (TxRes.ok 1 false) [TxRes.timeout, TxRes.ok 2 false]).map
          (fun o => o.endBurstTransfers) = some 2 := by decide
      rw [hw, Option.map_some'] at h2
      exact Option.some.inj h2
    rw [Option.map_some', hflag, hn]

/-- C3 counterexample: on the transport result trace [error, success] the
burst-end retry loop performs 2 transfers — it retries after the
non-timeout error instead of exiting the loop there (which would give 1
transfer), so the claim's exit-on-error clause is false. -/
theorem sendTxEndBurst_nontimeout_error_still_retries :
    sendTxEndBurstLoop [TxRes.error 7, TxRes.ok 0 false] = some 2
    ∧ (2 : ℕ) ≠ 1 := by
  constructor <;> decide

/-- C3 (amended): the burst-end operation retries indefinitely on
transport timeout and likewise on any other transport error (non-timeout
errors are logged but do not exit the loop); the loop exits only on
success, every attempt before the final one being a non-success, and the
open-burst flag is then cleared.  Each attempt carries the burst-end
marker flag, a zero payload of two 32-bit words with transfer count 2,
and a fixed 1000 ms timeout. -/
theorem sendTxEndBurst_retries_until_success
    (tr : List TxRes) (st : TxState) (n : ℕ) (st1 : TxState)
    (h : sendTxEndBurst tr st = some (n, st1)) :
    (1 ≤ n ∧ (tr[n - 1]?).map TxRes.isOk = some true
      ∧ ∀ i r, i + 1 < n → tr[i]? = some r → r.isOk = false)
    ∧ st1 = { st with inTxBurst := false }
    ∧ endBurstMdFlags = BLADERF_META_FLAG_TX_BURST_END
    ∧ endBurstSamples = [0, 0] ∧ endBurstCount = 2
    ∧ endBurstTimeoutMs = 1000 := by
  simp only [sendTxEndBurst, Option.map_eq_some'] at h
  obtain ⟨m, hm, hp⟩ := h
  have hmn : m = n := congrArg Prod.fst hp
  have hst : st1 = { st with inTxBurst := false } :=
    (congrArg Prod.snd hp).symm
  have hm2 : sendTxEndBurstLoop tr = some n := by rw [← hmn]; exact hm
  exact ⟨sendTxEndBurstLoop_spec tr n hm2, hst, rfl, rfl, rfl, rfl⟩

/-- Witness for C3's amended statement on the trace
[error 5, timeout, success]: three transfers, the last one successful,
and the burst flag cleared. -/
theorem sendTxEndBurst_retries_until_success_witness :
    (1 ≤ 3
      ∧ (([TxRes.error 5, TxRes.timeout, TxRes.ok 4 false])[(3 : ℕ) - 1]?).map
          TxRes.isOk = some true)
    ∧ (⟨false, false, 1, false⟩ : TxState)
        = { (⟨true, false, 1, false⟩ : TxState) with inTxBurst := false }
    ∧ endBurstSamples = [0, 0] ∧ endBurstCount = 2 := by
  have h := sendTxEndBurst_retries_until_success
    [TxRes.error 5, TxRes.timeout, TxRes.ok 4 false]
    ⟨true, false, 1, false⟩ 3 ⟨false, false, 1, false⟩ (by decide)
  exact ⟨⟨h.1.1, h.1.2.1⟩, h.2.1, h.2.2.2.1, h.2.2.2.2.1⟩

/-- C8: the setupStream tunable normalization rules.  A supplied buffer
count of 1 becomes 2; a supplied positive buffer length that is an exact
multiple of 1024 is unchanged while any other positive length is rounded
up to the next multiple of 1024; an absent/zero transfer count becomes
half the effective buffer count (then capped at 32); a supplied transfer
count exceeding the buffer count is clamped to the buffer count (then
capped at 32); and a supplied transfer count exceeding 32 (within the
buffer count) is clamped to 32. -/
theorem setupStream_tunable_normalization :
    numBuffsEff (some 1) = 2
    ∧ (∀ s : ℤ, 0 < s → 1024 ∣ s → bufSizeEff (some s) = s)
    ∧ (∀ s : ℤ, 0 < s → ¬ 1024 ∣ s →
        1024 ∣ bufSizeEff (some s) ∧ s < bufSizeEff (some s)
        ∧ bufSizeEff (some s) < s + 1024)
    ∧ (∀ nb : ℤ, 0 ≤ nb → numXfersEff none nb = min (cdiv nb 2) 32)
    ∧ (∀ x nb : ℤ, 0 < nb → nb < x → numXfersEff (some x) nb = min nb 32)
    ∧ (∀ x nb : ℤ, 32 < x → x ≤ nb → numXfersEff (some x) nb = 32) := by
  refine ⟨by decide, ?_, ?_, ?_, ?_, ?_⟩
  · intro s hs hdvd
    have h0 : ¬ s = 0 := by omega
    have hm : s % 1024 = 0 := Int.emod_eq_zero_of_dvd hdvd
    simp [bufSizeEff, h0, hm]
  · intro s hs hdvd
    have h0 : ¬ s = 0 := by omega
    have hm : ¬ s % 1024 = 0 := fun hc => hdvd (Int.dvd_of_emod_eq_zero hc)
    have hcd : cdiv s 1024 = s / 1024 := by simp [cdiv, hs.le]
    simp only [bufSizeEff, Option.getD_some, if_neg h0, hm, not_false_eq_true,
      if_true, hcd, ne_eq]
    refine ⟨⟨s / 1024 + 1, by ring⟩, by omega, by omega⟩
  · intro nb hnb
    have hle : nb / 2 ≤ nb := Int.ediv_le_self 2 hnb
    simp only [numXfersEff, Option.getD_none, if_pos rfl, cdiv, if_pos hnb,
      min_def]
    split_ifs <;> omega
  · intro x nb hnb hx
    have h0 : ¬ x = 0 := by omega
    simp only [numXfersEff, Option.getD_some, if_neg h0, min_def]
    split_ifs <;> omega
  · intro x nb hx hxn
    have h0 : ¬ x = 0 := by omega
    simp only [numXfersEff, Option.getD_some, if_neg h0]
    split_ifs <;> omega

/-- Witness for C8 at the spec's own example values: buffers=1 → 2,
buflen=1024 unchanged, buflen=100 rounded up into (100, 1124) on a
1024-multiple, transfers absent with 4096 buffers → min(2048, 32),
transfers=50 with 40 buffers → min(40, 32), transfers=40 with 4096
buffers → 32. -/
theorem setupStream_tunable_normalization_witness :
    numBuffsEff (some 1) = 2
    ∧ bufSizeEff (some 1024) = 1024
    ∧ (1024 ∣ bufSizeEff (some 100) ∧ 100 < bufSizeEff (some 100)
        ∧ bufSizeEff (some 100) < 100 + 1024)
    ∧ numXfersEff none 4096 = min (cdiv 4096 2) 32
    ∧ numXfersEff (some 50) 40 = min 40 32
    ∧ numXfersEff (some 40) 4096 = 32 := by
  have h := setupStream_tunable_normalization
  exact ⟨h.1, h.2.1 1024 (by norm_num) (by norm_num),
    h.2.2.1 100 (by norm_num) (by norm_num),
    h.2.2.2.1 4096 (by norm_num),
    h.2.2.2.2.1 50 40 (by norm_num) (by norm_num),
    h.2.2.2.2.2 40 4096 (by norm_num) (by norm_num)⟩

/-- C10: with the buffers option absent (or supplied as 0), the effective
buffer count is DEF_BUFF_LEN = 4096 — line 48 falls back to the
buffer-length default — and not the separately defined buffer-count
default DEF_NUM_BUFFS = 32, which no operation of the file consumes. -/
theorem setupStream_default_buffer_count :
    numBuffsEff none = DEF_BUFF_LEN
    ∧ numBuffsEff (some 0) = DEF_BUFF_LEN
    ∧ DEF_BUFF_LEN = 4096
    ∧ DEF_NUM_BUFFS = 32
    ∧ numBuffsEff none ≠ DEF_NUM_BUFFS := by
  refine ⟨?_, ?_, ?_, ?_, ?_⟩ <;> decide

end SoapyBladeRF
